import Mathlib

/-!
# Formal model of the Extract-Tennis-Rackets scraper

A shallow embedding of the Go program that drives a browser to enumerate a
dropdown's options, search each option, harvest racquet names, and extract a
`RacquetSpecs` record per racquet from in-page detail panels.

Modelling conventions:

* Browser/DOM effects are parameters: each definition that in Go performs a
  `chromedp` call takes the outcome of that call (success, error message, DOM
  contents) as an explicit input, and the definition computes exactly what the
  Go control flow does with that outcome.
* Go `error` values are `Option String` (`none` = `nil`); typed error
  classifications are small inductives whose constructors carry the formatted
  message where the message matters.
* `time.Duration` is an `int64` count of nanoseconds, modelled as `Int` with
  explicit two's-complement wrap-around.
-/

namespace Extract

/-! ## Package `config` (flag parsing) -/

/-- Two's-complement wrap-around of a mathematical integer into the `int64`
range, modelling Go's fixed-width integer multiplication. -/
def int64Wrap (x : Int) : Int :=
  (x + 2 ^ 63) % 2 ^ 64 - 2 ^ 63

/-- `time.Minute` as an `int64` nanosecond count (`time.Duration`). -/
def minuteNs : Int := 60 * 1000000000

/-- The flag values available after `flag.Parse()`: each field holds the
parsed value of the corresponding flag, or the registered default when that
flag is absent from the command line (`-timeout` defaults to `30`,
`-action-timeout` to `1`, in minutes). `flag.Int` rejects input outside the
`int64` range, so a well-formed `Flags.timeout` lies in `[-2^63, 2^63)`. -/
structure Flags where
  url : String := ""
  headless : Bool := false
  debug : Bool := false
  timeout : Int := 30
  actionTimeout : Int := 1
deriving DecidableEq

/-- All-defaults flag set (no command-line flags given). -/
def defaultFlags : Flags := {}

/-- The Go `config.Config` struct. The two timeout fields are
`time.Duration`, i.e. `int64` nanosecond counts. -/
structure Config where
  URL : String
  Headless : Bool
  Debug : Bool
  GlobalTimeout : Int
  ActionTimeout : Int
deriving DecidableEq

/-- `config.Parse`: copies the flag values into a `Config` and converts the
two timeout flags from minutes to `time.Duration` by
`time.Duration(v) * time.Minute`, an `int64` multiplication (wraps on
overflow). -/
def Parse (f : Flags) : Config :=
  { URL := f.url
    Headless := f.headless
    Debug := f.debug
    GlobalTimeout := int64Wrap (f.timeout * minuteNs)
    ActionTimeout := int64Wrap (f.actionTimeout * minuteNs) }

/-! ## Package `browser` (`NewChrome`) -/

/-- The three `context.CancelFunc`s created inside `browser.NewChrome`, named
after the context each one releases. -/
inductive CancelAction
  | timeoutCancel
  | browserCancel
  | allocCancel
deriving DecidableEq

/-- The body of `NewChrome`'s combined cancel function: it invokes the three
cancels in this order (timeout, then browser, then allocator). -/
def combinedCancel : List CancelAction :=
  [CancelAction.timeoutCancel, CancelAction.browserCancel, CancelAction.allocCancel]

/-- Abstraction of `NewChrome`'s returned `(context.Context,
context.CancelFunc)` pair together with its visible side effects:
`ctx` is `some ()` when the timeout context is returned and `none` for Go
`nil`; `cancelBody` lists the cancels the *returned* cancel function performs
when later invoked; `startupCancels` lists the cancels `NewChrome` itself
already performed before returning. -/
structure ChromeResult where
  ctx : Option Unit
  cancelBody : List CancelAction
  startupCancels : List CancelAction
deriving DecidableEq

/-- `browser.NewChrome`, parameterised by the outcome of the initial
`chromedp.Run(timeoutCtx, ...)` start-up probe (`some msg` = the browser
failed to start). On failure it calls the combined cancel function and then
returns `nil` with a no-op cancel (`func() {}`); on success it returns the
timeout context and the combined cancel function. -/
def NewChrome (startErr : Option String) : ChromeResult :=
  match startErr with
  | some _ => { ctx := none, cancelBody := [], startupCancels := combinedCancel }
  | none => { ctx := some (), cancelBody := combinedCancel, startupCancels := [] }

/-- `main`'s guard: the scraper (`GetOptions`, i.e. all extraction work) runs
iff the context returned by `NewChrome` is non-nil; a nil context hits
`log.Fatal` and no extraction work is performed. -/
def mainRunsExtraction (r : ChromeResult) : Bool :=
  r.ctx.isSome

/-! ## Action executor (`Scraper.runWithTimeout`) -/

/-- Status of the session context `s.ctx` at `runWithTimeout`'s entry check
(`select { case <-s.ctx.Done(): ... default: ... }`): `alive` = not done,
otherwise done with `s.ctx.Err()` equal to `context.Canceled` or
`context.DeadlineExceeded`. -/
inductive CtxStatus
  | alive
  | canceled
  | deadlineExceeded
deriving DecidableEq

/-- What happens to `chromedp.Run(timeoutCtx, actions...)` once it has been
started: `parentCanceled` / `parentDeadline` are the session context being
explicitly cancelled or its global deadline expiring while the call is in
flight; `childDeadline` is the per-call `context.WithTimeout(s.ctx,
s.actionTimeout)` deadline firing first; `otherErr` is any other
browser-level error. -/
inductive RunOutcome
  | ok
  | parentCanceled
  | parentDeadline
  | childDeadline
  | otherErr (msg : String)
deriving DecidableEq

/-- The error kind that `errors.Is` can observe on the error returned by
`chromedp.Run`. A context created by `context.WithTimeout` inherits its
parent's error when the parent ends first, and the session context is itself
a `context.WithTimeout` context, so both `parentDeadline` and
`childDeadline` surface as `context.DeadlineExceeded`: the origin of the
deadline is not recoverable from the error value. -/
inductive GoErrKind
  | noErr
  | canceled
  | deadlineExceeded
  | other (msg : String)
deriving DecidableEq

/-- Projection from what actually happened to the error kind the Go code can
observe with `errors.Is`. -/
def goErrKind : RunOutcome → GoErrKind
  | RunOutcome.ok => GoErrKind.noErr
  | RunOutcome.parentCanceled => GoErrKind.canceled
  | RunOutcome.parentDeadline => GoErrKind.deadlineExceeded
  | RunOutcome.childDeadline => GoErrKind.deadlineExceeded
  | RunOutcome.otherErr m => GoErrKind.other m

/-- The classified errors `runWithTimeout` can return, one constructor per
`return` statement carrying a distinct message shape. -/
inductive ActionError
  | sessionCancelled (msg : String)
  | canceledDuringExecution
  | actionTimedOut
  | actionFailed (msg : String)
deriving DecidableEq

/-- The string `ctx.Err()` renders for each non-alive status (interpolated
into the `"parent context canceled: %w"` message). -/
def ctxErrMsg : CtxStatus → String
  | CtxStatus.alive => ""
  | CtxStatus.canceled => "context canceled"
  | CtxStatus.deadlineExceeded => "context deadline exceeded"

/-- `Scraper.runWithTimeout`: if the session context is already done, fail
immediately with the `"parent context canceled: %w"` error; otherwise run the
actions under a derived child deadline and classify the resulting error by
`errors.Is`: `context.Canceled` maps to the `"action context canceled during
execution"` error, `context.DeadlineExceeded` to the `"action timed out"`
error, anything else is returned unchanged. -/
def runWithTimeout (parent : CtxStatus) (run : RunOutcome) : Option ActionError :=
  match parent with
  | CtxStatus.canceled => some (ActionError.sessionCancelled (ctxErrMsg CtxStatus.canceled))
  | CtxStatus.deadlineExceeded =>
      some (ActionError.sessionCancelled (ctxErrMsg CtxStatus.deadlineExceeded))
  | CtxStatus.alive =>
      match goErrKind run with
      | GoErrKind.noErr => none
      | GoErrKind.canceled => some ActionError.canceledDuringExecution
      | GoErrKind.deadlineExceeded => some ActionError.actionTimedOut
      | GoErrKind.other m => some (ActionError.actionFailed m)

/-- `true` iff a `runWithTimeout` result is the `"parent context canceled"`
(session-cancelled) classification. -/
def isSessionCancelled : Option ActionError → Bool
  | some (ActionError.sessionCancelled _) => true
  | _ => false

/-! ## String primitives of the in-page scripts

The JS scripts use `String.prototype.trim` and `startsWith`; they are
embedded here as structurally recursive functions on the character list of a
`String` (whitespace = space, tab, newline, carriage return), so that every
definition below evaluates by kernel reduction. -/

/-- Drop leading and trailing whitespace characters from a character list. -/
def trimList (l : List Char) : List Char :=
  ((l.dropWhile Char.isWhitespace).reverse.dropWhile Char.isWhitespace).reverse

/-- JS `s.trim()`. -/
def jsTrim (s : String) : String :=
  String.mk (trimList s.data)

/-- `p` is a prefix of `s` (character lists). -/
def isPrefixList : List Char → List Char → Bool
  | [], _ => true
  | _ :: _, [] => false
  | p :: ps, s :: ss => p == s && isPrefixList ps ss

/-- JS `s.startsWith(p)`. -/
def jsStartsWith (s p : String) : Bool :=
  isPrefixList p.data s.data

/-! ## DOM model for the detail panels -/

/-- One `<tr>` of a racquet's spec table: `text` is its full `textContent`,
`tds` the `textContent` of its `<td>` descendants in document order. -/
structure Row where
  text : String
  tds : List String
deriving DecidableEq

/-- One `.rac_name` element: its `textContent`, and the `<tr>` elements found
under its `parentNode` (`none` models a node whose `parentNode` is null). -/
structure RacEntry where
  nameText : String
  parent : Option (List Row)
deriving DecidableEq

/-- The Go `scraper.RacquetSpecs` struct: `Name`, `Error`, and twelve textual
spec fields — fourteen string fields in all, every one always present
(missing data is the empty string, the struct field's zero value). -/
structure RacquetSpecs where
  Name : String
  Error : String
  HeadSize : String
  Length : String
  Balance : String
  SwingWeight : String
  BeamWidth : String
  TipOrShaft : String
  Composition : String
  PowerLevel : String
  Stiffness : String
  StringPattern : String
  MainSkip : String
  StringTension : String
deriving DecidableEq

/-! ## Detail extractor (`Scraper.getRacquetInfo`) -/

/-- The in-page helper `getSpec(label)`: scan the parent's `<tr>` elements in
order for the first whose trimmed text starts with `label` and return that
row's first `<td>` text, trimmed. `none` models the `TypeError` thrown when
the matching row has no `<td>` at all (`querySelector('td')` is null and
`.textContent` on null throws); when no row matches, the loop falls through
and the helper returns the empty string. -/
def getSpec (rows : List Row) (label : String) : Option String :=
  match rows.find? (fun r => jsStartsWith (jsTrim r.text) label) with
  | none => some ""
  | some r => r.tds.head?.map jsTrim

/-- The twelve field labels the script looks up, in the order the object
literal evaluates them. -/
def specLabels : List String :=
  ["Head Size:", "Length:", "Balance:", "Swing Weight:", "Beam Width:",
   "Tip/Shaft:", "Composition:", "Power Level:", "Stiffness:",
   "String Pattern:", "Main Skip:", "String Tension:"]

/-- `getSpec` with the thrown-`TypeError` case collapsed away (used only on
rows where `getSpec` is known to succeed). -/
def getSpecD (rows : List Row) (label : String) : String :=
  (getSpec rows label).getD ""

/-- The matched branch of the per-racquet in-page script: the flat object that
is passed to `JSON.stringify`. The script calls `getSpec` once per label while
building a single object literal, so a `TypeError` thrown by any call aborts
the whole evaluation; that abort is `none`. When every call succeeds the
result carries the identifier as `name`, an empty `error`, and the twelve
looked-up fields. -/
def buildRecord (rows : List Row) (name : String) : Option RacquetSpecs :=
  if specLabels.all (fun l => (getSpec rows l).isSome) then
    some { Name := name
           Error := ""
           HeadSize := getSpecD rows "Head Size:"
           Length := getSpecD rows "Length:"
           Balance := getSpecD rows "Balance:"
           SwingWeight := getSpecD rows "Swing Weight:"
           BeamWidth := getSpecD rows "Beam Width:"
           TipOrShaft := getSpecD rows "Tip/Shaft:"
           Composition := getSpecD rows "Composition:"
           PowerLevel := getSpecD rows "Power Level:"
           Stiffness := getSpecD rows "Stiffness:"
           StringPattern := getSpecD rows "String Pattern:"
           MainSkip := getSpecD rows "Main Skip:"
           StringTension := getSpecD rows "String Tension:" }
  else none

/-- Value produced by one evaluation of the per-racquet script:
`strValue r` is the `JSON.stringify(...)` result of the matched branch,
carried as the record it encodes; `objValue` is either of the two
`return { name: ..., error: ... }` branches, which return a plain
(non-stringified) object; `thrown` is a script exception. -/
inductive ScriptValue
  | strValue (r : RacquetSpecs)
  | objValue (name err : String)
  | thrown
deriving DecidableEq

/-- The script's search for `foundDiv`: it walks every `.rac_name` element
comparing `currDiv.textContent.trim() === name` and assigns on each match
without breaking, so the LAST match wins. -/
def findDiv (divs : List RacEntry) (name : String) : Option RacEntry :=
  (divs.filter (fun d => jsTrim d.nameText == name)).getLast?

/-- One evaluation of the per-racquet in-page script against the current
page's `.rac_name` elements. -/
def evalRacquetScript (divs : List RacEntry) (name : String) : ScriptValue :=
  match findDiv divs name with
  | none => ScriptValue.objValue name "Couldn't find racDiv"
  | some d =>
      match d.parent with
      | none => ScriptValue.objValue name "Couldn't find parent"
      | some rows =>
          match buildRecord rows name with
          | none => ScriptValue.thrown
          | some r => ScriptValue.strValue r

/-- Outcome of the `runWithTimeout(chromedp.Evaluate(...))` call for one
racquet name: `execErr` is an executor-level failure (session cancelled,
per-action timeout, transport error) where no script value reaches the host;
`evaluated` means the script actually ran against the page. -/
inductive CallOutcome
  | execErr (msg : String)
  | evaluated
deriving DecidableEq

/-- Host-side capture of a script value into the Go variable
`stringifySpecs string` followed by `json.Unmarshal` into `RacquetSpecs`.
`chromedp.Evaluate` decodes the script's JSON value into the output variable
with `json.Unmarshal`; a JSON object cannot be unmarshalled into a Go
`string`, so the two non-stringified `objValue` branches make `chromedp.Run`
return a decode error (and a thrown exception makes it return an evaluation
error). A stringified record decodes into the string and then parses into
`RacquetSpecs`: a flat JSON object of strings whose keys match the struct
fields case-insensitively, so the parse succeeds and reproduces the fields. -/
def captureSpecs : ScriptValue → Option RacquetSpecs
  | ScriptValue.strValue r => some r
  | ScriptValue.objValue _ _ => none
  | ScriptValue.thrown => none

/-- One iteration of `getRacquetInfo`'s loop for the name `name` whose
executor call had outcome `c`: `none` means the iteration hit a `continue`
(logged and skipped), `some r` means `r` was appended to the local `specs`
slice. -/
def racquetStep (divs : List RacEntry) (name : String) (c : CallOutcome) :
    Option RacquetSpecs :=
  match c with
  | CallOutcome.execErr _ => none
  | CallOutcome.evaluated => captureSpecs (evalRacquetScript divs name)

/-- `Scraper.getRacquetInfo`: iterates the harvested names (each paired with
its executor-call outcome), appending the successfully captured records in
order; every per-name failure is absorbed by `continue`, and the function's
single return statement is `return specs, nil`, so the error component is
always `none`. -/
def getRacquetInfo (divs : List RacEntry) (calls : List (String × CallOutcome)) :
    List RacquetSpecs × Option String :=
  (calls.filterMap (fun nc => racquetStep divs nc.1 nc.2), none)

/-! ## Option processor (`Scraper.processOptions`) -/

/-- The log lines the processing loop emits, one constructor per
`log.Printf` site that matters to the control flow, each tagged with the
option label being processed. -/
inductive LogEvent
  | processing (label : String)
  | selectError (label : String)
  | harvestError (label : String)
  | specsError (label : String)
  | noRacNames (label : String)
  | reopenError (label : String)
deriving DecidableEq

/-- The browser-world outcomes one loop iteration of `processOptions` can
observe: `selectErr` is the result of the click-option/click-search
`runWithTimeout` call, `harvestErr` of the rac-name `Evaluate` call,
`racCalls` the harvested `.rac_name` texts each paired with the outcome of
its later per-racquet `Evaluate` call, `divs` the `.rac_name` elements the
per-racquet script sees, and `reopenErr` the result of the dropdown-reopen
click. Error fields hold the formatted message `runWithTimeout` returned. -/
structure OptionWorld where
  selectErr : Option String
  harvestErr : Option String
  racCalls : List (String × CallOutcome)
  divs : List RacEntry
  reopenErr : Option String
deriving DecidableEq

/-- One dropdown option together with the world it is processed against. -/
structure OptionEnv where
  label : String
  w : OptionWorld
deriving DecidableEq

/-- Log contribution of the end-of-iteration dropdown-reopen click (failure
is logged and `continue`d, which at the end of the loop body is a no-op). -/
def reopenLog (o : OptionEnv) : List LogEvent :=
  match o.w.reopenErr with
  | some _ => [LogEvent.reopenError o.label]
  | none => []

/-- One iteration of the `processOptions` loop: the records this option
appends to `results` and the log lines it emits.

Note the shadowing in the Go source: the loop body opens with
`specs := []RacquetSpecs{}`, but inside `if len(racNames) > 0` the statement
`specs, err := s.getRacquetInfo(racNames)` declares a NEW `specs` scoped to
that block. The later `results = append(results, specs...)` sits outside the
block and therefore appends the outer, still-empty slice: the records
returned by `getRacquetInfo` are printed via `spec.Print()` but never reach
`results`. The `let specs` / `let inner` pair below mirrors those two
distinct variables. -/
def processOne (o : OptionEnv) : List RacquetSpecs × List LogEvent :=
  let specs : List RacquetSpecs := []
  match o.w.selectErr with
  | some _ => ([], [LogEvent.processing o.label, LogEvent.selectError o.label])
  | none =>
      match o.w.harvestErr with
      | some _ => ([], [LogEvent.processing o.label, LogEvent.harvestError o.label])
      | none =>
          let racNames := o.w.racCalls.map Prod.fst
          if racNames.length > 0 then
            let inner := getRacquetInfo o.w.divs o.w.racCalls
            match inner.2 with
            | some _ => ([], [LogEvent.processing o.label, LogEvent.specsError o.label])
            | none => (specs, LogEvent.processing o.label :: reopenLog o)
          else
            (specs, LogEvent.processing o.label :: LogEvent.noRacNames o.label :: reopenLog o)

/-- The whole `for i, option := range options` loop: iterations are
independent, each appending its records to `results` and its lines to the
log. -/
def processLoop : List OptionEnv → List RacquetSpecs × List LogEvent
  | [] => ([], [])
  | o :: rest =>
      ((processOne o).1 ++ (processLoop rest).1,
       (processOne o).2 ++ (processLoop rest).2)

/-- Run-level errors `GetOptions` can return, one constructor per
`fmt.Errorf` wrapper, carrying the wrapped message. -/
inductive RunError
  | initialContextError (msg : String)
  | navigationFailed (msg : String)
  | pageLoadVerificationFailed (msg : String)
  | checkboxToggleFailed (msg : String)
  | optionsError (msg : String)
deriving DecidableEq

/-- `Scraper.processOptions`: runs the loop and ends with
`return results, nil` — the error component is always `none`. -/
def processOptions (opts : List OptionEnv) :
    List RacquetSpecs × List LogEvent × Option RunError :=
  ((processLoop opts).1, (processLoop opts).2, none)

/-! ## Option enumerator and `Scraper.GetOptions` -/

/-- The dropdown-enumeration script: collect every `.optionslist li` text in
DOM order, trim each, and keep those that are neither empty nor the literal
placeholder `'Select'`. -/
def enumerate (texts : List String) : List String :=
  (texts.map jsTrim).filter (fun t => t != "" && t != "Select")

/-- The world `GetOptions` runs against: the outcome of the initial
`s.ctx.Err()` check and of each setup / enumeration browser call (`some msg`
= that call failed with that message), the `li` texts the enumeration script
sees when it runs, and the per-option worlds (indexed by position in the
filtered option list) for the processing loop. -/
structure SetupEnv where
  initialCtxErr : Option String
  navErr : Option String
  loadErr : Option String
  checkboxErr : Option String
  enumErr : Option String
  domOptionTexts : List String
  worlds : Nat → OptionWorld

/-- `Scraper.GetOptions` (with `setupPage` inlined at its call site): check
the session context, navigate, verify page load, uncheck the checkbox,
enumerate the dropdown — each failure returns the corresponding wrapped
run-level error with nil records — then hand the filtered options to
`processOptions` and return its result. -/
def GetOptions (env : SetupEnv) : List RacquetSpecs × List LogEvent × Option RunError :=
  match env.initialCtxErr with
  | some m => ([], [], some (RunError.initialContextError m))
  | none =>
      match env.navErr with
      | some m => ([], [], some (RunError.navigationFailed m))
      | none =>
          match env.loadErr with
          | some m => ([], [], some (RunError.pageLoadVerificationFailed m))
          | none =>
              match env.checkboxErr with
              | some m => ([], [], some (RunError.checkboxToggleFailed m))
              | none =>
                  match env.enumErr with
                  | some m => ([], [], some (RunError.optionsError m))
                  | none =>
                      let options := enumerate env.domOptionTexts
                      let envs :=
                        options.enum.map (fun p => { label := p.2, w := env.worlds p.1 })
                      processOptions envs

/-! ## Concrete fixtures used by the closed theorems and witnesses -/

/-- A spec table holding exactly one row, the `Head Size:` one. -/
def rowsX : List Row := [{ text := "Head Size: 100 sq in", tds := ["100 sq in"] }]

/-- A page with one `.rac_name` element `"X"` whose parent holds `rowsX`. -/
def divsX : List RacEntry := [{ nameText := "X", parent := some rowsX }]

/-- The record the in-page script builds for `"X"` against `divsX`. -/
def recX : RacquetSpecs :=
  { Name := "X", Error := "", HeadSize := "100 sq in", Length := "", Balance := ""
    SwingWeight := "", BeamWidth := "", TipOrShaft := "", Composition := ""
    PowerLevel := "", Stiffness := "", StringPattern := "", MainSkip := ""
    StringTension := "" }

/-- A fully successful option iteration: selection, harvest and the single
per-racquet evaluation for `"X"` all succeed against `divsX`. -/
def goodEnvA : OptionEnv :=
  { label := "A"
    w := { selectErr := none, harvestErr := none
           racCalls := [("X", CallOutcome.evaluated)], divs := divsX
           reopenErr := none } }

/-- A page whose only `.rac_name` element is `"Other"` — no match for `"X"`. -/
def divsOther : List RacEntry := [{ nameText := "Other", parent := some [] }]

/-- A second item's spec table, which DOES hold a `Length:` row. -/
def rowsY : List Row := [{ text := "Length: 27 in", tds := ["27 in"] }]

/-- A two-item page: `"X"`'s panel is `rowsX` (no `Length:` row), `"Y"`'s
panel is `rowsY` (which has one). -/
def divsXY : List RacEntry :=
  [{ nameText := "X", parent := some rowsX }, { nameText := "Y", parent := some rowsY }]

/-- Per-option world in which every browser call succeeds and nothing is
found. -/
def worldsNone : Nat → OptionWorld :=
  fun _ => { selectErr := none, harvestErr := none, racCalls := [], divs := []
             reopenErr := none }

/-- A session that is already cancelled when `GetOptions` is entered, with
every later browser call set up to succeed. -/
def envPreCancelled : SetupEnv :=
  { initialCtxErr := some "context canceled", navErr := none, loadErr := none
    checkboxErr := none, enumErr := none, domOptionTexts := ["A"]
    worlds := worldsNone }

/-- A run in which every setup step succeeds and the dropdown is structurally
empty. -/
def envAllOk : SetupEnv :=
  { initialCtxErr := none, navErr := none, loadErr := none, checkboxErr := none
    enumErr := none, domOptionTexts := [], worlds := worldsNone }

/-- An option whose selection/search step fails with a timeout. -/
def failEnvA : OptionEnv :=
  { label := "A"
    w := { selectErr := some "action timed out after 1m0s", harvestErr := none
           racCalls := [], divs := [], reopenErr := none } }

/-- An option processed after `failEnvA` whose steps all succeed (and which
harvests nothing). -/
def okEnvB : OptionEnv :=
  { label := "B"
    w := { selectErr := none, harvestErr := none, racCalls := [], divs := []
           reopenErr := none } }

/-- The error log line a failed option iteration emits right after its
`processing` line: the select/search failure if that step failed, otherwise
the harvest failure. -/
def failEvents (o : OptionEnv) : List LogEvent :=
  match o.w.selectErr with
  | some _ => [LogEvent.selectError o.label]
  | none =>
      match o.w.harvestErr with
      | some _ => [LogEvent.harvestError o.label]
      | none => []

/-- The per-label projection out of a `RacquetSpecs` record, defined for the
twelve labels of `specLabels`. -/
def specField (r : RacquetSpecs) : String → String
  | "Head Size:" => r.HeadSize
  | "Length:" => r.Length
  | "Balance:" => r.Balance
  | "Swing Weight:" => r.SwingWeight
  | "Beam Width:" => r.BeamWidth
  | "Tip/Shaft:" => r.TipOrShaft
  | "Composition:" => r.Composition
  | "Power Level:" => r.PowerLevel
  | "Stiffness:" => r.Stiffness
  | "String Pattern:" => r.StringPattern
  | "Main Skip:" => r.MainSkip
  | "String Tension:" => r.StringTension
  | _ => ""

/-! ## Shared helper lemmas -/

theorem processLoop_append (a b : List OptionEnv) :
    processLoop (a ++ b) =
      ((processLoop a).1 ++ (processLoop b).1, (processLoop a).2 ++ (processLoop b).2) := by
  induction a with
  | nil => simp [processLoop]
  | cons o rest ih => simp [processLoop, ih, List.append_assoc]

/-! ## Claim theorems -/

/-- **C1** (code bug). Against a single option whose selection, search,
harvest and per-racquet evaluation all succeed, `getRacquetInfo` produces the
one successfully parsed record `recX`, yet the aggregate returned by
`processOptions` is empty: the inner `specs, err := s.getRacquetInfo(...)`
shadows the outer `specs` slice, so the parsed records are dropped and the
output length (0) is not the sum of successfully parsed records (1). -/
theorem c1_aggregate_drops_records :
    getRacquetInfo divsX [("X", CallOutcome.evaluated)] = ([recX], none) ∧
    processOptions [goodEnvA] = ([], [LogEvent.processing "A"], none) :=
  ⟨by decide, by decide⟩

/-- **C2** (code bug). For the identifier `"X"`, which matches no `.rac_name`
element of the page `divsOther`, the in-page script does build the
`Couldn't find racDiv` error object — but that branch returns the object
without `JSON.stringify`, so `chromedp.Evaluate` cannot decode it into the Go
`string` target, the call errors, and the identifier is skipped:
`getRacquetInfo` contributes NO record for it, where the claim requires a
record with non-empty `Error` and all other fields empty. -/
theorem c2_not_found_contributes_nothing :
    evalRacquetScript divsOther "X" = ScriptValue.objValue "X" "Couldn't find racDiv" ∧
    getRacquetInfo divsOther [("X", CallOutcome.evaluated)] = ([], none) :=
  ⟨by decide, by decide⟩

/-- **C3** (counterexample). When the outer session budget expires while an
action is executing (parent still alive at the entry check), the error
`chromedp.Run` returns satisfies `errors.Is(err, context.DeadlineExceeded)`
— indistinguishably from the per-call child deadline — so `runWithTimeout`
classifies it as the action-timed-out error, not as any session-cancelled
error: the claim that outer-budget expiry is "classified as SessionCancelled,
never as ActionTimedOut" is false. -/
theorem c3_parent_deadline_timedout :
    runWithTimeout CtxStatus.alive RunOutcome.parentDeadline = some ActionError.actionTimedOut ∧
    isSessionCancelled (runWithTimeout CtxStatus.alive RunOutcome.parentDeadline) = false :=
  ⟨rfl, rfl⟩

/-- **C3** (amended). Every failing `runWithTimeout` call is classified into
exactly one outcome, but by observable error kind, not by origin: a session
already done at the entry check yields the session-cancelled error; during
execution, cancellation yields the canceled-during-execution error, ANY
deadline expiry — per-call child deadline or outer session deadline, which
produce the same `context.DeadlineExceeded` error value — yields the
action-timed-out error, and any other error is passed through. -/
theorem c3_classified (p : CtxStatus) (r : RunOutcome) :
    (p ≠ CtxStatus.alive →
      runWithTimeout p r = some (ActionError.sessionCancelled (ctxErrMsg p))) ∧
    runWithTimeout CtxStatus.alive RunOutcome.parentDeadline =
      runWithTimeout CtxStatus.alive RunOutcome.childDeadline ∧
    runWithTimeout CtxStatus.alive RunOutcome.childDeadline = some ActionError.actionTimedOut ∧
    runWithTimeout CtxStatus.alive RunOutcome.parentCanceled =
      some ActionError.canceledDuringExecution ∧
    runWithTimeout CtxStatus.alive RunOutcome.ok = none ∧
    (∀ m, runWithTimeout CtxStatus.alive (RunOutcome.otherErr m) =
      some (ActionError.actionFailed m)) := by
  refine ⟨?_, rfl, rfl, rfl, rfl, fun m => rfl⟩
  intro hp
  cases p with
  | alive => exact absurd rfl hp
  | canceled => rfl
  | deadlineExceeded => rfl

/-- Witness for `c3_classified` at a session already cancelled at entry. -/
theorem c3_classified_witness :
    runWithTimeout CtxStatus.canceled RunOutcome.ok =
      some (ActionError.sessionCancelled "context canceled") :=
  (c3_classified CtxStatus.canceled RunOutcome.ok).1 (by decide)

/-- **C9**. If the initial browser start fails (with any error message), the
constructor first performs the combined cancel — releasing the timeout,
browser and allocator contexts in that order — and returns a nil context
together with a cancel function that does nothing; `main` treats the nil
context as fatal and runs no extraction work. -/
theorem c9_newChrome_failure (e : String) :
    (NewChrome (some e)).startupCancels =
      [CancelAction.timeoutCancel, CancelAction.browserCancel, CancelAction.allocCancel] ∧
    (NewChrome (some e)).ctx = none ∧
    (NewChrome (some e)).cancelBody = [] ∧
    mainRunsExtraction (NewChrome (some e)) = false :=
  ⟨rfl, rfl, rfl, rfl⟩

/-- Witness for `c9_newChrome_failure` at a concrete start-up error. -/
theorem c9_newChrome_failure_witness :
    (NewChrome (some "browser failed to start")).ctx = none ∧
    mainRunsExtraction (NewChrome (some "browser failed to start")) = false :=
  ⟨(c9_newChrome_failure "browser failed to start").2.1,
   (c9_newChrome_failure "browser failed to start").2.2.2⟩

/-- **C10**. For every flag input whose minute-to-nanosecond conversion stays
inside the `int64` range, the parsed `Config` carries
`GlobalTimeout = timeout * time.Minute` and
`ActionTimeout = actionTimeout * time.Minute`; with no flags given the
defaults yield 30 minutes and 1 minute. -/
theorem c10_parse_timeouts (f : Flags)
    (hg1 : -(2 ^ 63) ≤ f.timeout * minuteNs) (hg2 : f.timeout * minuteNs < 2 ^ 63)
    (ha1 : -(2 ^ 63) ≤ f.actionTimeout * minuteNs)
    (ha2 : f.actionTimeout * minuteNs < 2 ^ 63) :
    (Parse f).GlobalTimeout = f.timeout * minuteNs ∧
    (Parse f).ActionTimeout = f.actionTimeout * minuteNs ∧
    (Parse defaultFlags).GlobalTimeout = 30 * minuteNs ∧
    (Parse defaultFlags).ActionTimeout = 1 * minuteNs := by
  refine ⟨?_, ?_, by decide, by decide⟩
  · simp only [Parse, int64Wrap]
    omega
  · simp only [Parse, int64Wrap]
    omega

/-- Witness for `c10_parse_timeouts` at the default flag values. -/
theorem c10_parse_timeouts_witness :
    (Parse defaultFlags).GlobalTimeout = 30 * minuteNs ∧
    (Parse defaultFlags).ActionTimeout = 1 * minuteNs := by
  have h := c10_parse_timeouts defaultFlags (by decide) (by decide) (by decide) (by decide)
  exact ⟨h.2.2.1, h.2.2.2⟩

/-- **C4**. If an option's selection/search call or its result-harvest call
fails, the loop skips to the next option: the failing option contributes no
records (only its `processing` line and the error line), every option before
and after it is still processed with its records and log lines intact, and
the run completes with a nil run-level error. -/
theorem c4_failed_option_isolated (pre post : List OptionEnv) (f : OptionEnv)
    (hf : f.w.selectErr.isSome = true ∨ f.w.harvestErr.isSome = true) :
    processOptions (pre ++ f :: post) =
      ((processOptions pre).1 ++ (processOptions post).1,
       (processOptions pre).2.1 ++ (LogEvent.processing f.label :: failEvents f)
         ++ (processOptions post).2.1,
       none) := by
  have hone : processOne f = ([], LogEvent.processing f.label :: failEvents f) := by
    rcases hf with h | h
    · obtain ⟨m, hm⟩ := Option.isSome_iff_exists.mp h
      simp [processOne, failEvents, hm]
    · cases hsel : f.w.selectErr with
      | some m => simp [processOne, failEvents, hsel]
      | none =>
          obtain ⟨m, hm⟩ := Option.isSome_iff_exists.mp h
          simp [processOne, failEvents, hsel, hm]
  have happ := processLoop_append pre (f :: post)
  simp [processOptions, happ, processLoop, hone]

/-- Witness for `c4_failed_option_isolated`: option `"A"` times out at
selection, option `"B"` is still processed afterwards, the error is nil. -/
theorem c4_failed_option_isolated_witness :
    processOptions [failEnvA, okEnvB] =
      ([], [LogEvent.processing "A", LogEvent.selectError "A",
            LogEvent.processing "B", LogEvent.noRacNames "B"], none) := by
  have h := c4_failed_option_isolated [] [okEnvB] failEnvA (Or.inl rfl)
  exact h.trans (by decide)

/-- **C8**. `getRacquetInfo` returns a nil error for every input (its only
return statement is `return specs, nil`; every per-identifier failure is
absorbed by `continue`), so the caller's branch handling a non-nil error from
it — the one that would log the specs-error line — is unreachable: no
iteration of `processOptions` ever emits that line. -/
theorem c8_detail_error_always_nil :
    (∀ (divs : List RacEntry) (calls : List (String × CallOutcome)),
       (getRacquetInfo divs calls).2 = none) ∧
    (∀ o : OptionEnv, LogEvent.specsError o.label ∉ (processOne o).2) := by
  constructor
  · intro divs calls
    rfl
  · intro o
    cases hsel : o.w.selectErr with
    | some m => simp [processOne, hsel]
    | none =>
        cases hh : o.w.harvestErr with
        | some m => simp [processOne, hsel, hh]
        | none =>
            cases hr : o.w.reopenErr
            all_goals
              simp only [processOne, hsel, hh, hr, reopenLog, getRacquetInfo]
              split <;> simp

/-- Witness for `c8_detail_error_always_nil` at a concrete failing call. -/
theorem c8_detail_error_always_nil_witness :
    (getRacquetInfo [] [("X", CallOutcome.execErr "action timed out")]).2 = none :=
  c8_detail_error_always_nil.1 [] [("X", CallOutcome.execErr "action timed out")]

/-- **C5** (counterexample). A session that is already cancelled when
`GetOptions` is entered produces a run-level error even though navigation,
page-load verification, the checkbox toggle and option enumeration are all
set up to succeed: the initial `s.ctx.Err()` check is an error source the
claim's list omits. -/
theorem c5_error_despite_setup_success :
    GetOptions envPreCancelled =
      ([], [], some (RunError.initialContextError "context canceled")) ∧
    envPreCancelled.navErr = none ∧ envPreCancelled.loadErr = none ∧
    envPreCancelled.checkboxErr = none ∧ envPreCancelled.enumErr = none :=
  ⟨rfl, rfl, rfl, rfl, rfl⟩

/-- **C5** (amended). `GetOptions` returns a run-level error only when the
initial session-cancellation check, a setup-phase step (navigation,
page-load verification, checkbox toggle) or option enumeration fails; in
every such case it returns zero records and processes no option (empty log);
and once all of those succeed — options enumerated — it never returns a
run-level error. -/
theorem c5_error_only_from_setup (env : SetupEnv) :
    ((GetOptions env).2.2.isSome = true →
       env.initialCtxErr.isSome = true ∨ env.navErr.isSome = true ∨
       env.loadErr.isSome = true ∨ env.checkboxErr.isSome = true ∨
       env.enumErr.isSome = true) ∧
    ((GetOptions env).2.2.isSome = true →
       (GetOptions env).1 = [] ∧ (GetOptions env).2.1 = []) ∧
    (env.initialCtxErr = none → env.navErr = none → env.loadErr = none →
       env.checkboxErr = none → env.enumErr = none →
       (GetOptions env).2.2 = none) := by
  cases h1 : env.initialCtxErr with
  | some m => simp [GetOptions, h1]
  | none =>
      cases h2 : env.navErr with
      | some m => simp [GetOptions, h1, h2]
      | none =>
          cases h3 : env.loadErr with
          | some m => simp [GetOptions, h1, h2, h3]
          | none =>
              cases h4 : env.checkboxErr with
              | some m => simp [GetOptions, h1, h2, h3, h4]
              | none =>
                  cases h5 : env.enumErr with
                  | some m => simp [GetOptions, h1, h2, h3, h4, h5]
                  | none => simp [GetOptions, h1, h2, h3, h4, h5, processOptions]

/-- Witness for `c5_error_only_from_setup`: with every setup step succeeding,
the run-level error is nil. -/
theorem c5_error_only_from_setup_witness : (GetOptions envAllOk).2.2 = none :=
  (c5_error_only_from_setup envAllOk).2.2 rfl rfl rfl rfl rfl

/-- **C6**. The enumeration keeps DOM order (the filtered list is a sublist
of the trimmed texts), every returned entry is the trimmed text of some
dropdown entry and is neither empty nor the placeholder `"Select"`, every
trimmed entry that is neither empty nor `"Select"` is returned, and a
structurally empty dropdown yields a successful run with zero records, zero
processed options and a nil error. -/
theorem c6_enumerate_filters (texts : List String) (env : SetupEnv)
    (h1 : env.initialCtxErr = none) (h2 : env.navErr = none) (h3 : env.loadErr = none)
    (h4 : env.checkboxErr = none) (h5 : env.enumErr = none)
    (h6 : env.domOptionTexts = []) :
    List.Sublist (enumerate texts) (texts.map jsTrim) ∧
    (∀ t ∈ enumerate texts, (∃ s ∈ texts, jsTrim s = t) ∧ t ≠ "" ∧ t ≠ "Select") ∧
    (∀ s ∈ texts, jsTrim s ≠ "" → jsTrim s ≠ "Select" → jsTrim s ∈ enumerate texts) ∧
    GetOptions env = ([], [], none) := by
  refine ⟨List.filter_sublist _, ?_, ?_, ?_⟩
  · intro t ht
    simp only [enumerate, List.mem_filter, List.mem_map, Bool.and_eq_true,
      bne_iff_ne, ne_eq] at ht
    obtain ⟨⟨s, hs, rfl⟩, hts, htsel⟩ := ht
    exact ⟨⟨s, hs, rfl⟩, hts, htsel⟩
  · intro s hs hne hnsel
    simp only [enumerate, List.mem_filter, List.mem_map, Bool.and_eq_true,
      bne_iff_ne, ne_eq]
    exact ⟨⟨s, hs, rfl⟩, hne, hnsel⟩
  · simp [GetOptions, h1, h2, h3, h4, h5, h6, enumerate, processOptions, processLoop]

/-- Witness for `c6_enumerate_filters`: a concrete dropdown and the empty
dropdown. -/
theorem c6_enumerate_filters_witness :
    jsTrim " A " ∈ enumerate [" A ", "  ", "Select", "B"] ∧
    GetOptions envAllOk = ([], [], none) := by
  have h := c6_enumerate_filters [" A ", "  ", "Select", "B"] envAllOk
    rfl rfl rfl rfl rfl rfl
  exact ⟨h.2.2.1 " A " (by simp) (by decide) (by decide), h.2.2.2⟩

/-- **C7**. For an identifier with a DOM match — `findDiv` locates the
matched `.rac_name` entry `d`, whose ancestor (parent) holds the spec rows
`rows` — and whose in-page evaluation reaches the matched branch (the script
returns a stringified record `r`), every known field label that matches no
table row of THAT item's ancestor yields the empty string for the
corresponding field of `r` — never an absent field: the `RacquetSpecs` shape
is the fixed fourteen-string-field structure. Rows of other items' panels
elsewhere on the page are irrelevant: `getSpec` only consults the matched
parent's rows. -/
theorem c7_missing_label_field_empty (divs : List RacEntry) (name label : String)
    (d : RacEntry) (rows : List Row) (r : RacquetSpecs)
    (hl : label ∈ specLabels)
    (hd : findDiv divs name = some d)
    (hp : d.parent = some rows)
    (hs : evalRacquetScript divs name = ScriptValue.strValue r)
    (hno : ∀ row ∈ rows, jsStartsWith (jsTrim row.text) label = false) :
    specField r label = "" := by
  have hb : buildRecord rows name = some r := by
    cases hbm : buildRecord rows name with
    | none => simp [evalRacquetScript, hd, hp, hbm] at hs
    | some r' =>
        have hr : r' = r := by
          simpa [evalRacquetScript, hd, hp, hbm] using hs
        exact congrArg some hr
  have hfind : rows.find? (fun row => jsStartsWith (jsTrim row.text) label) = none :=
    List.find?_eq_none.mpr (fun row hrow => by simp [hno row hrow])
  have hgs : getSpec rows label = some "" := by
    simp [getSpec, hfind]
  rw [buildRecord] at hb
  split at hb
  · have hrec := Option.some.inj hb
    rw [← hrec]
    simp only [specLabels, List.mem_cons, List.not_mem_nil, or_false] at hl
    rcases hl with rfl | rfl | rfl | rfl | rfl | rfl | rfl | rfl | rfl
      | rfl | rfl | rfl <;>
      simp [specField, getSpecD, hgs]
  · exact absurd hb (by simp)

/-- Witness for `c7_missing_label_field_empty` on the two-item page `divsXY`:
`"X"`'s own panel has no `Length:` row — although `"Y"`'s panel elsewhere on
the page does — and the record extracted for `"X"` has an empty `Length`. -/
theorem c7_missing_label_field_empty_witness : specField recX "Length:" = "" :=
  c7_missing_label_field_empty divsXY "X" "Length:"
    { nameText := "X", parent := some rowsX } rowsX recX
    (by decide) (by decide) (by decide) (by decide) (by decide)

end Extract
